import Mathlib

/-!
Verification of the control-transaction, telemetry-decoding and unit-conversion
core of the aquacomputer_d5next hwmon driver family, as a shallow embedding.

Buffers are lists of bytes (`List Nat`, each cell reduced mod 256 on read),
machine integers are `Nat`/`Int` with explicit wrapping where the C code casts,
and transport results are passed in as parameters so that the I/O structure of
each transaction is an explicit list of operations.
-/

/-! ## Error numbers and protocol constants (from the source macros) -/

def ENODATA : Int := 61

def EINVAL : Int := 22

def STATUS_REPORT_ID : Nat := 0x01

def SERIAL_PART_OFFSET : Nat := 2

def AQC_SENSOR_SIZE : Nat := 0x02

def AQC_SENSOR_NA : Nat := 0x7FFF

def AQC_FAN_CTRL_PWM_OFFSET : Nat := 0x01

/- Data types for reading and writing control reports -/
def AQC_8 : Nat := 0

def AQC_BE16 : Nat := 1

def AQC_LE16 : Nat := 2

/-! ## Byte-buffer primitives

`byteAt` models reading a `u8` cell of the driver's report buffer; a read past
the end of the supplied list yields 0 (the driver's buffers are fixed-size and
zero-initialised).  `put_unaligned_be16`/`le16` mirror the kernel helpers. -/

def byteAt (buf : List Nat) (i : Nat) : Nat := buf.getD i 0 % 256

def get_unaligned_be16 (buf : List Nat) (i : Nat) : Nat :=
  byteAt buf i * 256 + byteAt buf (i + 1)

def get_unaligned_le16 (buf : List Nat) (i : Nat) : Nat :=
  byteAt buf i + byteAt buf (i + 1) * 256

def put_unaligned_be16 (v : Nat) (buf : List Nat) (i : Nat) : List Nat :=
  (buf.set i (v / 256 % 256)).set (i + 1) (v % 256)

def put_unaligned_le16 (v : Nat) (buf : List Nat) (i : Nat) : List Nat :=
  (buf.set i (v % 256)).set (i + 1) (v / 256 % 256)

/-- The `length` bytes starting at `start`, as read by `crc16(.., buffer + start, length)`. -/
def windowBytes (buf : List Nat) (start len : Nat) : List Nat :=
  (List.range len).map (fun j => byteAt buf (start + j))

/-- Cast of a 16-bit value to `s16` (two's complement). -/
def sgn16 (v : Nat) : Int :=
  if v % 65536 < 0x8000 then ((v % 65536 : Nat) : Int) else ((v % 65536 : Nat) : Int) - 0x10000

/-- Cast of a C `long` to `u16` (reduction mod 2^16). -/
def toU16 (v : Int) : Nat := (v % 65536).toNat

/-- Cast of a C `long` to `u8` (reduction mod 2^8). -/
def toU8 (v : Int) : Nat := (v % 256).toNat

/-! ## CRC-16

The driver calls the kernel's `crc16` (lib/crc16.c), the LSB-first CRC-16 with
polynomial 0xA001; with init and xor-out 0xFFFF this is CRC-16/USB, exactly as
the comments in `aqc_send_ctrl_data` state.  We embed the bitwise form that the
kernel's byte table implements. -/

def crc16_round (crc : Nat) : Nat :=
  if crc % 2 = 1 then (crc / 2) ^^^ 0xA001 else crc / 2

def crc16_rounds : Nat → Nat → Nat
  | 0, crc => crc
  | n + 1, crc => crc16_rounds n (crc16_round crc)

def crc16_byte (crc b : Nat) : Nat := crc16_rounds 8 ((crc ^^^ b % 256) % 65536)

def crc16 (crc : Nat) (data : List Nat) : Nat := data.foldl crc16_byte crc

/-! ## Unit conversion library -/

/-- Kernel `DIV_ROUND_CLOSEST` for signed operands (the only instantiations the
driver uses), with C truncating division. -/
def div_round_closest (x d : Int) : Int :=
  if (0 < x) ↔ (0 < d) then (x + d.tdiv 2).tdiv d else (x - d.tdiv 2).tdiv d

/-- Converts from centi-percent. -/
def aqc_percent_to_pwm (val : Int) : Int := div_round_closest (val * 255) (100 * 100)

/-- Converts to centi-percent. -/
def aqc_pwm_to_percent (val : Int) : Int := div_round_closest (val * 100 * 100) 255

/-- Kernel `clamp_val`. -/
def clamp_val (v lo hi : Int) : Int := min (max v lo) hi

/-! ## Device data (the fields of `struct aqc_data` the claims depend on) -/

inductive Kind
  | aquaero | d5next | farbwerk | farbwerk360 | octo | quadro
  | highflownext | leakshield | aquastreamxt | aquastreamult
  | poweradjust3 | highflow
deriving DecidableEq

structure AqcData where
  kind : Kind
  status_report_id : Nat
  buffer_size : Nat
  checksum_start : Nat
  checksum_length : Nat
  checksum_offset : Nat
  num_temp_sensors : Nat
  temp_sensor_start_offset : Nat
  num_virtual_temp_sensors : Nat
  virtual_temp_sensor_start_offset : Nat
  temp_ctrl_offset : Nat
  fan_ctrl_offsets : List Nat
  serial_number_start_offset : Nat
  firmware_version_offset : Nat
deriving DecidableEq

/-- The D5 Next instance of `aqc_data`, as filled in by `aqc_probe`
(`USB_PRODUCT_ID_D5NEXT` branch; checksum fields from the common
`buffer_size != 0` branch). -/
def d5next_profile : AqcData where
  kind := Kind.d5next
  status_report_id := 0
  buffer_size := 0x329
  checksum_start := 0x01
  checksum_length := 0x329 - 3
  checksum_offset := 0x329 - 2
  num_temp_sensors := 1
  temp_sensor_start_offset := 0x57
  num_virtual_temp_sensors := 8
  virtual_temp_sensor_start_offset := 0x3f
  temp_ctrl_offset := 0x2D
  fan_ctrl_offsets := [0x96, 0x41]
  serial_number_start_offset := 0x03
  firmware_version_offset := 0x0D

/-- The Octo instance of `aqc_data`, as filled in by `aqc_probe`. -/
def octo_profile : AqcData where
  kind := Kind.octo
  status_report_id := 0
  buffer_size := 0x65F
  checksum_start := 0x01
  checksum_length := 0x65F - 3
  checksum_offset := 0x65F - 2
  num_temp_sensors := 4
  temp_sensor_start_offset := 0x3D
  num_virtual_temp_sensors := 16
  virtual_temp_sensor_start_offset := 0x45
  temp_ctrl_offset := 0xA
  fan_ctrl_offsets := [0x5A, 0xAF, 0x104, 0x159, 0x1AE, 0x203, 0x258, 0x2AD]
  serial_number_start_offset := 0x03
  firmware_version_offset := 0x0D

/-- The Aquastream XT instance of `aqc_data` (a legacy, polled device:
`status_report_id` is nonzero), as filled in by `aqc_probe`. -/
def aquastreamxt_profile : AqcData where
  kind := Kind.aquastreamxt
  status_report_id := 0x04
  buffer_size := 0x42
  checksum_start := 0x01
  checksum_length := 0x42 - 3
  checksum_offset := 0x42 - 2
  num_temp_sensors := 3
  temp_sensor_start_offset := 0xd
  num_virtual_temp_sensors := 0
  virtual_temp_sensor_start_offset := 0
  temp_ctrl_offset := 0
  fan_ctrl_offsets := [0x8, 0x1b]
  serial_number_start_offset := 0x3a
  firmware_version_offset := 0x32

/-! ## Control transaction engine

`aqc_send_ctrl_data` first (for every kind except Aquaero and Aquastream XT)
recomputes the CRC-16/USB checksum of the buffer's checksum window and stores
it big-endian at the checksum offset, then issues the primary feature-report
SET of the full image followed, if the primary SET succeeded, by the secondary
acknowledgement SET.  Transport return codes are passed in as parameters; the
issued operations are returned as an explicit list. -/

inductive CtrlOp
  | getImage
  | setImage (buf : List Nat)
  | setSecondaryReport
deriving DecidableEq

/-- The buffer as patched by the checksum step of `aqc_send_ctrl_data`. -/
def aqc_send_ctrl_data_buffer (p : AqcData) (buf : List Nat) : List Nat :=
  if p.kind ≠ Kind.aquaero ∧ p.kind ≠ Kind.aquastreamxt then
    put_unaligned_be16
      (crc16 0xffff (windowBytes buf p.checksum_start p.checksum_length) ^^^ 0xffff)
      buf p.checksum_offset
  else buf

/-- `aqc_send_ctrl_data`: checksum step, primary SET, then (only on primary
success) the secondary acknowledgement SET.  Returns the issued operations and
the function's return value. -/
def aqc_send_ctrl_data (p : AqcData) (buf : List Nat)
    (primary_ret secondary_ret : Int) : List CtrlOp × Int :=
  if primary_ret < 0 then ([CtrlOp.setImage (aqc_send_ctrl_data_buffer p buf)], primary_ret)
  else ([CtrlOp.setImage (aqc_send_ctrl_data_buffer p buf), CtrlOp.setSecondaryReport],
    secondary_ret)

/-- `aqc_set_buffer_val`: one in-place field write (8-bit, 16-bit big-endian or
16-bit little-endian); an unknown type yields `none` (-EINVAL). -/
def aqc_set_buffer_val (buffer : List Nat) (offset : Nat) (val : Int) (ty : Nat) :
    Option (List Nat) :=
  if ty = AQC_LE16 then some (put_unaligned_le16 (toU16 val) buffer offset)
  else if ty = AQC_BE16 then some (put_unaligned_be16 (toU16 val) buffer offset)
  else if ty = AQC_8 then some (buffer.set offset (toU8 val))
  else none

/-- The patch loop of `aqc_set_ctrl_vals`, applied to a local copy of the image. -/
def applyPatches : List Nat → List (Nat × Int × Nat) → Option (List Nat)
  | buf, [] => some buf
  | buf, (off, v, ty) :: rest =>
    match aqc_set_buffer_val buf off v ty with
    | none => none
    | some buf2 => applyPatches buf2 rest

/-- The byte indices written by one patch of `aqc_set_buffer_val`. -/
def patchBytes : Nat × Int × Nat → List Nat
  | (off, _, ty) => if ty = AQC_8 then [off] else [off, off + 1]

/-- The full buffer `aqc_set_ctrl_vals` sends to the device, as a function of
the control image fetched at the start of the transaction and the list of
(offset, value, type) patches; `none` when a patch has an invalid type (the
transaction aborts before the SET). -/
def aqc_set_ctrl_vals_sent (p : AqcData) (image : List Nat)
    (patches : List (Nat × Int × Nat)) : Option (List Nat) :=
  match applyPatches image patches with
  | none => none
  | some buf => some (aqc_send_ctrl_data_buffer p buf)

/-- `aqc_set_ctrl_vals` as an I/O trace: fetch the image (result `get_ok`),
apply the patches, send.  `image` is the image the device returns to the
fetch. -/
def aqc_set_ctrl_vals_ops (p : AqcData) (image : List Nat)
    (patches : List (Nat × Int × Nat)) (get_ok : Bool)
    (primary_ret secondary_ret : Int) : List CtrlOp × Int :=
  if ¬get_ok then ([CtrlOp.getImage], -ENODATA)
  else
    match applyPatches image patches with
    | none => ([CtrlOp.getImage], -EINVAL)
    | some buf =>
      (CtrlOp.getImage :: (aqc_send_ctrl_data p buf primary_ret secondary_ret).1,
        (aqc_send_ctrl_data p buf primary_ret secondary_ret).2)

/-! ## `aqc_write` paths relevant to range checking -/

/-- The `hwmon_pwm_input` branch of `aqc_write` for the push-protocol devices
(the `default` case: D5 Next, Octo, Quadro, ...): values outside 0..255 are
rejected with -EINVAL before any transaction; otherwise the centi-percent
conversion of the value is written at the fan's PWM offset. -/
def aqc_write_pwm_input (p : AqcData) (image : List Nat) (channel : Nat) (val : Int)
    (get_ok : Bool) (primary_ret secondary_ret : Int) : List CtrlOp × Int :=
  if val < 0 ∨ 255 < val then ([], -EINVAL)
  else
    aqc_set_ctrl_vals_ops p image
      [(p.fan_ctrl_offsets.getD channel 0 + AQC_FAN_CTRL_PWM_OFFSET,
        aqc_pwm_to_percent val, AQC_BE16)]
      get_ok primary_ret secondary_ret

/-- The `hwmon_temp_offset` branch of `aqc_write`: the value is clamped to
±15000 (±15 degrees in milli-degrees), divided by 10 and written big-endian at
the channel's trim offset — there is no rejection path. -/
def aqc_write_temp_offset (p : AqcData) (image : List Nat) (channel : Nat) (val : Int)
    (get_ok : Bool) (primary_ret secondary_ret : Int) : List CtrlOp × Int :=
  aqc_set_ctrl_vals_ops p image
    [(p.temp_ctrl_offset + channel * AQC_SENSOR_SIZE,
      (clamp_val val (-15000) 15000).tdiv 10, AQC_BE16)]
    get_ok primary_ret secondary_ret

/-! ## Telemetry decoder (`aqc_raw_event`) -/

/-- One temperature channel of the push-report decoder: the 16-bit big-endian
value at `base + i * AQC_SENSOR_SIZE`, read as `s16`; the sentinel 0x7FFF maps
to -ENODATA, anything else is scaled by 10. -/
def aqc_decode_temp (data : List Nat) (base i : Nat) : Int :=
  if sgn16 (get_unaligned_be16 data (base + i * AQC_SENSOR_SIZE)) = ((AQC_SENSOR_NA : Nat) : Int)
  then -ENODATA
  else sgn16 (get_unaligned_be16 data (base + i * AQC_SENSOR_SIZE)) * 10

/-- The `temp_input` array after the two temperature loops of `aqc_raw_event`:
physical sensors first, virtual sensors appended (the code keeps incrementing
the same index `i`). -/
def aqc_raw_event_temps (p : AqcData) (data : List Nat) : List Int :=
  (List.range p.num_temp_sensors).map
      (fun i => aqc_decode_temp data p.temp_sensor_start_offset i) ++
    (List.range p.num_virtual_temp_sensors).map
      (fun j => aqc_decode_temp data p.virtual_temp_sensor_start_offset j)

structure RawEventResult where
  handled : Bool
  temps : List Int
  updated : Bool
  ret : Int
deriving DecidableEq

/-- `aqc_raw_event`: the only validation is the report-id comparison; the
`size` argument is accepted and ignored, exactly as in the source.  A report
with the expected id is decoded unconditionally and stamps `priv->updated`. -/
def aqc_raw_event (p : AqcData) (report_id : Nat) (data : List Nat) (size : Nat) :
    RawEventResult :=
  if report_id ≠ STATUS_REPORT_ID then ⟨false, [], false, 0⟩
  else ⟨true, aqc_raw_event_temps p data, true, 0⟩

/-! ## `aqc_read` staleness gate -/

/-- The gate at the top of `aqc_read`: when the snapshot is older than
`STATUS_UPDATE_INTERVAL` (2 * HZ), a legacy device (nonzero status report id)
is re-polled synchronously — the read fails with -ENODATA only if that poll
fails — while a push device fails immediately with -ENODATA.  Returns 0 when
the read proceeds to deliver a value. -/
def aqc_read_gate (p : AqcData) (hz now updated : Nat) (legacy_ret : Int) : Int :=
  if updated + 2 * hz < now then
    if p.status_report_id ≠ 0 then
      if legacy_ret < 0 then -ENODATA else 0
    else -ENODATA
  else 0

/-! ## Fan-curve parameter visibility -/

/-- `aqc_params_is_visible`: `index` is the position of the attribute in the
generated group (five parameters per channel, channels consecutive), `mode` the
attribute's declared mode. -/
def aqc_params_is_visible (kind : Kind) (index : Nat) (mode : Nat) : Nat :=
  let nr := index % 5
  if kind = Kind.d5next ∧ nr > 2 then 0 else mode

/-! ## The standalone Octo driver (aquacomputer_octo.c) -/

namespace Octo

def CTRL_REPORT_SIZE : Nat := 0x65F

def CTRL_REPORT_CHECKSUM_OFFSET : Nat := 0x65D

def CTRL_REPORT_CHECKSUM_START : Nat := 0x01

def CTRL_REPORT_CHECKSUM_LENGTH : Nat := 0x65C

/-- The checksum step of `octo_send_ctrl_data`: CRC-16/USB over the checksum
window, stored big-endian at the checksum offset, before the report is sent. -/
def octo_send_ctrl_data_buffer (buf : List Nat) : List Nat :=
  put_unaligned_be16
    (crc16 0xffff (windowBytes buf CTRL_REPORT_CHECKSUM_START CTRL_REPORT_CHECKSUM_LENGTH) ^^^ 0xffff)
    buf CTRL_REPORT_CHECKSUM_OFFSET

end Octo

/-! ## Small concrete instances used by the witnesses -/

/-- A small device instance (Octo kind) with an 8-byte control buffer, used to
exercise the transaction-layer theorems on concrete data. -/
def tiny_profile : AqcData where
  kind := Kind.octo
  status_report_id := 0
  buffer_size := 8
  checksum_start := 1
  checksum_length := 5
  checksum_offset := 6
  num_temp_sensors := 1
  temp_sensor_start_offset := 2
  num_virtual_temp_sensors := 0
  virtual_temp_sensor_start_offset := 0
  temp_ctrl_offset := 2
  fan_ctrl_offsets := [0, 4]
  serial_number_start_offset := 0
  firmware_version_offset := 0

def tiny_image : List Nat := [1, 2, 3, 4, 5, 6, 7, 8]

/-- A D5 Next push report (zero-filled) whose coolant-temperature field holds
the 0x7FFF "sensor absent" sentinel. -/
def sentinel_data : List Nat := ((List.replicate 0x76 0).set 0x57 0x7F).set 0x58 0xFF

/-! # Helper lemmas -/

theorem getD_set_ne (l : List Nat) (i j v : Nat) (h : i ≠ j) :
    (l.set i v).getD j 0 = l.getD j 0 := by
  induction l generalizing i j with
  | nil => cases i <;> cases j <;> rfl
  | cons a t ih =>
    cases i with
    | zero =>
      cases j with
      | zero => exact absurd rfl h
      | succ j2 => rfl
    | succ i2 =>
      cases j with
      | zero => rfl
      | succ j2 => exact ih i2 j2 (by omega)

theorem getD_set_self (l : List Nat) (i v : Nat) (h : i < l.length) :
    (l.set i v).getD i 0 = v := by
  induction l generalizing i with
  | nil => simp at h
  | cons a t ih =>
    cases i with
    | zero => rfl
    | succ i2 => exact ih i2 (by simp [List.length_cons] at h; omega)

theorem byteAt_set_ne (l : List Nat) (i j v : Nat) (h : i ≠ j) :
    byteAt (l.set i v) j = byteAt l j := by
  unfold byteAt
  rw [getD_set_ne l i j v h]

theorem byteAt_set_self (l : List Nat) (i v : Nat) (h : i < l.length) :
    byteAt (l.set i v) i = v % 256 := by
  unfold byteAt
  rw [getD_set_self l i v h]

theorem byteAt_put_be16_ne (l : List Nat) (i j v : Nat) (h1 : j ≠ i) (h2 : j ≠ i + 1) :
    byteAt (put_unaligned_be16 v l i) j = byteAt l j := by
  unfold put_unaligned_be16
  rw [byteAt_set_ne _ _ _ _ (fun he => h2 he.symm), byteAt_set_ne _ _ _ _ (fun he => h1 he.symm)]

theorem byteAt_put_le16_ne (l : List Nat) (i j v : Nat) (h1 : j ≠ i) (h2 : j ≠ i + 1) :
    byteAt (put_unaligned_le16 v l i) j = byteAt l j := by
  unfold put_unaligned_le16
  rw [byteAt_set_ne _ _ _ _ (fun he => h2 he.symm), byteAt_set_ne _ _ _ _ (fun he => h1 he.symm)]

theorem windowBytes_put_be16 (l : List Nat) (s n i v : Nat) (h : s + n ≤ i) :
    windowBytes (put_unaligned_be16 v l i) s n = windowBytes l s n := by
  unfold windowBytes
  apply List.map_congr_left
  intro j hj
  have hj2 : j < n := List.mem_range.mp hj
  exact byteAt_put_be16_ne l i (s + j) v (by omega) (by omega)

theorem crc16_round_lt (crc : Nat) (h : crc < 65536) : crc16_round crc < 65536 := by
  unfold crc16_round
  split
  · have h1 : crc / 2 < 65536 := by omega
    have h2 : (65536 : Nat) = 2 ^ 16 := by norm_num
    rw [h2]
    exact Nat.xor_lt_two_pow (by omega) (by norm_num)
  · omega

theorem crc16_rounds_lt (n crc : Nat) (h : crc < 65536) : crc16_rounds n crc < 65536 := by
  induction n generalizing crc with
  | zero => exact h
  | succ m ih => exact ih _ (crc16_round_lt crc h)

theorem crc16_byte_lt (crc b : Nat) : crc16_byte crc b < 65536 := by
  unfold crc16_byte
  exact crc16_rounds_lt 8 _ (Nat.mod_lt _ (by norm_num))

theorem crc16_lt (crc : Nat) (data : List Nat) (h : crc < 65536) : crc16 crc data < 65536 := by
  unfold crc16
  induction data generalizing crc with
  | nil => exact h
  | cons b rest ih => exact ih (crc16_byte crc b) (crc16_byte_lt crc b)

theorem get_put_be16 (l : List Nat) (i v : Nat) (hv : v < 65536) (hb : i + 2 ≤ l.length) :
    get_unaligned_be16 (put_unaligned_be16 v l i) i = v := by
  unfold get_unaligned_be16 put_unaligned_be16
  rw [byteAt_set_ne _ _ _ _ (by omega), byteAt_set_self _ _ _ (by omega),
    byteAt_set_self _ _ _ (by rw [List.length_set]; omega)]
  omega

/-- The checksum-patching step of `aqc_send_ctrl_data` for a non-exempt kind,
factored out: the sent buffer carries at the checksum offset the big-endian
CRC-16/USB of its own checksum window. -/
theorem send_buffer_checksum (p : AqcData) (buf : List Nat)
    (h1 : p.kind ≠ Kind.aquaero) (h2 : p.kind ≠ Kind.aquastreamxt)
    (hw : p.checksum_start + p.checksum_length ≤ p.checksum_offset)
    (hb : p.checksum_offset + 2 ≤ buf.length) :
    get_unaligned_be16 (aqc_send_ctrl_data_buffer p buf) p.checksum_offset =
      crc16 0xffff
        (windowBytes (aqc_send_ctrl_data_buffer p buf) p.checksum_start p.checksum_length)
      ^^^ 0xffff := by
  unfold aqc_send_ctrl_data_buffer
  rw [if_pos ⟨h1, h2⟩]
  have hlt : crc16 0xffff (windowBytes buf p.checksum_start p.checksum_length) ^^^ 0xffff
      < 65536 := by
    have he : (65536 : Nat) = 2 ^ 16 := by norm_num
    rw [he]
    exact Nat.xor_lt_two_pow
      (by rw [← he]; exact crc16_lt _ _ (by norm_num)) (by norm_num)
  rw [windowBytes_put_be16 _ _ _ _ _ hw]
  exact get_put_be16 buf p.checksum_offset _ hlt hb

/-- C1: on every commit for a model that is not Aquaero and not Aquastream XT,
the buffer sent to the device carries, at the profile's checksum trailer
offset, the big-endian CRC-16/USB (init 0xFFFF, xor-out 0xFFFF) of that same
buffer's checksum window; and the same for `octo_send_ctrl_data` of the
standalone Octo driver.  Since `aqc_set_ctrl_vals` sends exactly
`aqc_send_ctrl_data_buffer` of the patched image, no control image reaches the
device without this recomputation. -/
theorem aqc_send_ctrl_data_writes_checksum (p : AqcData) (buf : List Nat)
    (h1 : p.kind ≠ Kind.aquaero) (h2 : p.kind ≠ Kind.aquastreamxt)
    (hw : p.checksum_start + p.checksum_length ≤ p.checksum_offset)
    (hb : p.checksum_offset + 2 ≤ buf.length) :
    (get_unaligned_be16 (aqc_send_ctrl_data_buffer p buf) p.checksum_offset =
      crc16 0xffff
        (windowBytes (aqc_send_ctrl_data_buffer p buf) p.checksum_start p.checksum_length)
      ^^^ 0xffff) ∧
    (∀ image patches sent, aqc_set_ctrl_vals_sent p image patches = some sent →
      sent = aqc_send_ctrl_data_buffer p (applyPatches image patches |>.getD image)) ∧
    (∀ buf2 : List Nat, Octo.CTRL_REPORT_SIZE ≤ buf2.length →
      get_unaligned_be16 (Octo.octo_send_ctrl_data_buffer buf2)
          Octo.CTRL_REPORT_CHECKSUM_OFFSET =
        crc16 0xffff
          (windowBytes (Octo.octo_send_ctrl_data_buffer buf2)
            Octo.CTRL_REPORT_CHECKSUM_START Octo.CTRL_REPORT_CHECKSUM_LENGTH)
        ^^^ 0xffff) := by
  refine ⟨send_buffer_checksum p buf h1 h2 hw hb, ?_, ?_⟩
  · intro image patches sent hs
    unfold aqc_set_ctrl_vals_sent at hs
    cases hmid : applyPatches image patches with
    | none =>
      simp only [hmid] at hs
      exact Option.noConfusion hs
    | some buf3 =>
      simp only [hmid] at hs
      cases hs
      simp [hmid]
  · intro buf2 hl
    unfold Octo.octo_send_ctrl_data_buffer
    have hlt : crc16 0xffff
        (windowBytes buf2 Octo.CTRL_REPORT_CHECKSUM_START Octo.CTRL_REPORT_CHECKSUM_LENGTH)
        ^^^ 0xffff < 65536 := by
      have he : (65536 : Nat) = 2 ^ 16 := by norm_num
      rw [he]
      exact Nat.xor_lt_two_pow
        (by rw [← he]; exact crc16_lt _ _ (by norm_num)) (by norm_num)
    rw [windowBytes_put_be16 _ _ _ _ _ (by decide)]
    refine get_put_be16 buf2 _ _ hlt ?_
    have : Octo.CTRL_REPORT_CHECKSUM_OFFSET + 2 = Octo.CTRL_REPORT_SIZE := by decide
    omega

/-- Witness for C1 at a concrete 8-byte image. -/
theorem aqc_send_ctrl_data_writes_checksum_witness :
    (tiny_profile.kind ≠ Kind.aquaero) ∧ (tiny_profile.kind ≠ Kind.aquastreamxt) ∧
    (tiny_profile.checksum_start + tiny_profile.checksum_length ≤
      tiny_profile.checksum_offset) ∧
    (tiny_profile.checksum_offset + 2 ≤ tiny_image.length) ∧
    get_unaligned_be16 (aqc_send_ctrl_data_buffer tiny_profile tiny_image)
        tiny_profile.checksum_offset =
      crc16 0xffff
        (windowBytes (aqc_send_ctrl_data_buffer tiny_profile tiny_image)
          tiny_profile.checksum_start tiny_profile.checksum_length)
      ^^^ 0xffff :=
  ⟨by decide, by decide, by decide, by decide,
    (aqc_send_ctrl_data_writes_checksum tiny_profile tiny_image
      (by decide) (by decide) (by decide) (by decide)).1⟩

/-- One field write of `aqc_set_buffer_val` leaves every byte outside the
field's byte range unchanged. -/
theorem set_buffer_val_preserves (buf : List Nat) (off : Nat) (v : Int) (ty : Nat)
    (buf2 : List Nat) (hs : aqc_set_buffer_val buf off v ty = some buf2)
    (i : Nat) (hi : i ∉ patchBytes (off, v, ty)) :
    byteAt buf2 i = byteAt buf i := by
  unfold aqc_set_buffer_val at hs
  simp only [patchBytes] at hi
  by_cases h1 : ty = AQC_LE16
  · rw [if_pos h1] at hs
    cases hs
    rw [if_neg (by rw [h1]; decide)] at hi
    simp only [List.mem_cons, List.mem_singleton] at hi
    push_neg at hi
    exact byteAt_put_le16_ne buf off i _ hi.1 hi.2.1
  · rw [if_neg h1] at hs
    by_cases h2 : ty = AQC_BE16
    · rw [if_pos h2] at hs
      cases hs
      rw [if_neg (by rw [h2]; decide)] at hi
      simp only [List.mem_cons, List.mem_singleton] at hi
      push_neg at hi
      exact byteAt_put_be16_ne buf off i _ hi.1 hi.2.1
    · rw [if_neg h2] at hs
      by_cases h3 : ty = AQC_8
      · rw [if_pos h3] at hs
        cases hs
        rw [if_pos h3] at hi
        simp only [List.mem_singleton] at hi
        exact byteAt_set_ne buf off i _ (fun he => hi he.symm)
      · rw [if_neg h3] at hs
        exact Option.noConfusion hs

/-- The patch loop of `aqc_set_ctrl_vals` leaves every byte outside all patched
byte ranges unchanged. -/
theorem applyPatches_preserves (ps : List (Nat × Int × Nat)) (buf buf2 : List Nat)
    (hs : applyPatches buf ps = some buf2) (i : Nat)
    (hi : ∀ q ∈ ps, i ∉ patchBytes q) :
    byteAt buf2 i = byteAt buf i := by
  induction ps generalizing buf with
  | nil =>
    unfold applyPatches at hs
    cases hs
    rfl
  | cons q rest ih =>
    obtain ⟨off, v, ty⟩ := q
    unfold applyPatches at hs
    cases hmid : aqc_set_buffer_val buf off v ty with
    | none =>
      simp only [hmid] at hs
      exact Option.noConfusion hs
    | some bufm =>
      simp only [hmid] at hs
      have hrest := ih bufm hs (fun q2 hq2 => hi q2 (List.mem_cons_of_mem _ hq2))
      rw [hrest]
      exact set_buffer_val_preserves buf off v ty bufm hmid i (hi _ (List.mem_cons_self _ _))

/-- C2: in a multi-field control write, every byte of the buffer sent to the
device that lies outside the patched fields' byte ranges and outside the
two-byte checksum trailer equals the corresponding byte of the control image
fetched at the start of the transaction. -/
theorem aqc_set_ctrl_vals_preserves_unpatched (p : AqcData) (image : List Nat)
    (patches : List (Nat × Int × Nat)) (sent : List Nat)
    (hs : aqc_set_ctrl_vals_sent p image patches = some sent) (i : Nat)
    (hout : ∀ q ∈ patches, i ∉ patchBytes q)
    (ht1 : i ≠ p.checksum_offset) (ht2 : i ≠ p.checksum_offset + 1) :
    byteAt sent i = byteAt image i := by
  unfold aqc_set_ctrl_vals_sent at hs
  cases hmid : applyPatches image patches with
  | none =>
    simp only [hmid] at hs
    exact Option.noConfusion hs
  | some buf =>
    simp only [hmid] at hs
    cases hs
    unfold aqc_send_ctrl_data_buffer
    split
    · rw [byteAt_put_be16_ne _ _ _ _ ht1 ht2]
      exact applyPatches_preserves patches image buf hmid i hout
    · exact applyPatches_preserves patches image buf hmid i hout

set_option maxRecDepth 4000 in
/-- Witness for C2: an 8-bit patch at offset 2 of a concrete 8-byte image;
byte 4 (outside the patch and outside the trailer at offsets 6-7) of the sent
buffer equals byte 4 of the fetched image. -/
theorem aqc_set_ctrl_vals_preserves_unpatched_witness :
    aqc_set_ctrl_vals_sent tiny_profile tiny_image [((2 : Nat), (0xAB : Int), AQC_8)] =
      some [1, 2, 171, 4, 5, 6, 136, 64] ∧
    (∀ q ∈ [((2 : Nat), (0xAB : Int), AQC_8)], (4 : Nat) ∉ patchBytes q) ∧
    (4 : Nat) ≠ tiny_profile.checksum_offset ∧
    (4 : Nat) ≠ tiny_profile.checksum_offset + 1 ∧
    byteAt [1, 2, 171, 4, 5, 6, 136, 64] 4 = byteAt tiny_image 4 :=
  ⟨by decide, by decide, by decide, by decide,
    aqc_set_ctrl_vals_preserves_unpatched tiny_profile tiny_image
      [((2 : Nat), (0xAB : Int), AQC_8)] [1, 2, 171, 4, 5, 6, 136, 64]
      (by decide) 4 (by decide) (by decide) (by decide)⟩

theorem getD_append_lt (A B : List Int) (i : Nat) (h : i < A.length) :
    (A ++ B).getD i 0 = A.getD i 0 := by
  induction A generalizing i with
  | nil => simp at h
  | cons a t ih =>
    cases i with
    | zero => rfl
    | succ i2 => exact ih i2 (by simp [List.length_cons] at h; omega)

theorem getD_append_right_at (A B : List Int) (j : Nat) :
    (A ++ B).getD (A.length + j) 0 = B.getD j 0 := by
  induction A with
  | nil => simp
  | cons a t ih =>
    simp only [List.cons_append, List.length_cons]
    have he : t.length + 1 + j = (t.length + j) + 1 := by omega
    rw [he]
    exact ih

theorem getD_map_range (f : Nat → Int) (n i : Nat) (h : i < n) :
    ((List.range n).map f).getD i 0 = f i := by
  induction n with
  | zero => omega
  | succ m ih =>
    rw [List.range_succ, List.map_append]
    rcases Nat.lt_or_ge i m with hlt | hge
    · rw [getD_append_lt _ _ i (by simp [List.length_map, List.length_range]; omega)]
      exact ih hlt
    · have hi : i = m := by omega
      subst hi
      have hl : ((List.range i).map f).length = i := by
        simp [List.length_map, List.length_range]
      have h0 := getD_append_right_at ((List.range i).map f) ([i].map f) 0
      rw [hl, Nat.add_zero] at h0
      exact h0

theorem get_unaligned_be16_lt (buf : List Nat) (i : Nat) :
    get_unaligned_be16 buf i < 65536 := by
  unfold get_unaligned_be16 byteAt
  have h1 : buf.getD i 0 % 256 < 256 := Nat.mod_lt _ (by norm_num)
  have h2 : buf.getD (i + 1) 0 % 256 < 256 := Nat.mod_lt _ (by norm_num)
  omega

theorem sgn16_eq_na_iff (v : Nat) (h : v < 65536) :
    sgn16 v = ((AQC_SENSOR_NA : Nat) : Int) ↔ v = AQC_SENSOR_NA := by
  unfold sgn16 AQC_SENSOR_NA
  rw [Nat.mod_eq_of_lt h]
  split <;> omega

/-- The physical-sensor slots of the decoded `temp_input` array. -/
theorem temps_getD_phys (p : AqcData) (data : List Nat) (j : Nat)
    (hj : j < p.num_temp_sensors) :
    (aqc_raw_event_temps p data).getD j 0 =
      aqc_decode_temp data p.temp_sensor_start_offset j := by
  unfold aqc_raw_event_temps
  rw [getD_append_lt _ _ j (by simp [List.length_map, List.length_range]; omega)]
  exact getD_map_range _ _ _ hj

/-- The virtual-sensor slots of the decoded `temp_input` array (the decoder
keeps incrementing the same index). -/
theorem temps_getD_virt (p : AqcData) (data : List Nat) (j : Nat)
    (hj : j < p.num_virtual_temp_sensors) :
    (aqc_raw_event_temps p data).getD (p.num_temp_sensors + j) 0 =
      aqc_decode_temp data p.virtual_temp_sensor_start_offset j := by
  unfold aqc_raw_event_temps
  have hl : ((List.range p.num_temp_sensors).map
      (fun i => aqc_decode_temp data p.temp_sensor_start_offset i)).length =
      p.num_temp_sensors := by
    simp [List.length_map, List.length_range]
  have h0 := getD_append_right_at
    ((List.range p.num_temp_sensors).map
      (fun i => aqc_decode_temp data p.temp_sensor_start_offset i))
    ((List.range p.num_virtual_temp_sensors).map
      (fun j2 => aqc_decode_temp data p.virtual_temp_sensor_start_offset j2)) j
  rw [hl] at h0
  rw [h0]
  exact getD_map_range _ _ _ hj

/-- A temperature channel's decoded value depends only on its own two bytes. -/
theorem aqc_decode_temp_congr (data data2 : List Nat) (base j : Nat)
    (h1 : byteAt data (base + j * AQC_SENSOR_SIZE) = byteAt data2 (base + j * AQC_SENSOR_SIZE))
    (h2 : byteAt data (base + j * AQC_SENSOR_SIZE + 1) =
      byteAt data2 (base + j * AQC_SENSOR_SIZE + 1)) :
    aqc_decode_temp data base j = aqc_decode_temp data2 base j := by
  unfold aqc_decode_temp get_unaligned_be16
  rw [h1, h2]

theorem aqc_decode_temp_sentinel (data : List Nat) (base i : Nat)
    (h : get_unaligned_be16 data (base + i * AQC_SENSOR_SIZE) = AQC_SENSOR_NA) :
    aqc_decode_temp data base i = -ENODATA := by
  unfold aqc_decode_temp
  rw [if_pos (by rw [h]; decide)]

theorem aqc_decode_temp_value (data : List Nat) (base i : Nat)
    (h : get_unaligned_be16 data (base + i * AQC_SENSOR_SIZE) ≠ AQC_SENSOR_NA) :
    aqc_decode_temp data base i =
      sgn16 (get_unaligned_be16 data (base + i * AQC_SENSOR_SIZE)) * 10 := by
  unfold aqc_decode_temp
  rw [if_neg]
  rw [sgn16_eq_na_iff _ (get_unaligned_be16_lt data _)]
  exact h

/-- C3: if a temperature channel's 16-bit big-endian raw value is the sentinel
0x7FFF, the decoder stores the explicit -ENODATA marker for it (which is
neither 0 nor any 0x7FFF-derived value); any other channel whose two bytes are
untouched decodes identically (physical channels by index, virtual channels
whenever their byte offsets avoid the sentinel channel's two bytes); a
non-sentinel channel decodes to its signed raw value times 10. -/
theorem aqc_raw_event_temp_sentinel (p : AqcData) (data data2 : List Nat) (i : Nat)
    (hi : i < p.num_temp_sensors)
    (hsent : get_unaligned_be16 data
      (p.temp_sensor_start_offset + i * AQC_SENSOR_SIZE) = AQC_SENSOR_NA)
    (hagree : ∀ m, m ≠ p.temp_sensor_start_offset + i * AQC_SENSOR_SIZE →
      m ≠ p.temp_sensor_start_offset + i * AQC_SENSOR_SIZE + 1 →
      byteAt data m = byteAt data2 m) :
    (aqc_raw_event_temps p data).getD i 0 = -ENODATA ∧
    (-ENODATA : Int) ≠ 0 ∧
    (-ENODATA : Int) ≠ ((AQC_SENSOR_NA : Nat) : Int) * 10 ∧
    (∀ j, j < p.num_temp_sensors → j ≠ i →
      (aqc_raw_event_temps p data).getD j 0 = (aqc_raw_event_temps p data2).getD j 0) ∧
    (∀ j, j < p.num_virtual_temp_sensors →
      p.virtual_temp_sensor_start_offset + j * AQC_SENSOR_SIZE ≠
        p.temp_sensor_start_offset + i * AQC_SENSOR_SIZE →
      p.virtual_temp_sensor_start_offset + j * AQC_SENSOR_SIZE ≠
        p.temp_sensor_start_offset + i * AQC_SENSOR_SIZE + 1 →
      p.virtual_temp_sensor_start_offset + j * AQC_SENSOR_SIZE + 1 ≠
        p.temp_sensor_start_offset + i * AQC_SENSOR_SIZE →
      (aqc_raw_event_temps p data).getD (p.num_temp_sensors + j) 0 =
        (aqc_raw_event_temps p data2).getD (p.num_temp_sensors + j) 0) ∧
    (∀ j, j < p.num_temp_sensors →
      get_unaligned_be16 data (p.temp_sensor_start_offset + j * AQC_SENSOR_SIZE) ≠
        AQC_SENSOR_NA →
      (aqc_raw_event_temps p data).getD j 0 =
        sgn16 (get_unaligned_be16 data
          (p.temp_sensor_start_offset + j * AQC_SENSOR_SIZE)) * 10) := by
  have hsz : AQC_SENSOR_SIZE = 2 := rfl
  refine ⟨?_, by decide, by decide, ?_, ?_, ?_⟩
  · rw [temps_getD_phys p data i hi]
    exact aqc_decode_temp_sentinel data _ i hsent
  · intro j hj hne
    rw [temps_getD_phys p data j hj, temps_getD_phys p data2 j hj]
    refine aqc_decode_temp_congr data data2 _ j ?_ ?_
    · exact hagree _ (by rw [hsz]; omega) (by rw [hsz]; omega)
    · exact hagree _ (by rw [hsz]; omega) (by rw [hsz]; omega)
  · intro j hj hne1 hne2 hne3
    rw [temps_getD_virt p data j hj, temps_getD_virt p data2 j hj]
    refine aqc_decode_temp_congr data data2 _ j ?_ ?_
    · exact hagree _ hne1 hne2
    · exact hagree _ (by omega) (fun he => hne1 (by omega))
  · intro j hj hne
    rw [temps_getD_phys p data j hj]
    exact aqc_decode_temp_value data _ j hne

/-- Witness for C3: a concrete zero-filled D5 Next push report whose coolant
temperature field holds the sentinel. -/
theorem aqc_raw_event_temp_sentinel_witness :
    (0 < d5next_profile.num_temp_sensors) ∧
    get_unaligned_be16 sentinel_data
      (d5next_profile.temp_sensor_start_offset + 0 * AQC_SENSOR_SIZE) = AQC_SENSOR_NA ∧
    (aqc_raw_event_temps d5next_profile sentinel_data).getD 0 0 = -ENODATA :=
  ⟨by decide, by decide,
    (aqc_raw_event_temp_sentinel d5next_profile sentinel_data sentinel_data 0
      (by decide) (by decide) (fun m h1 h2 => rfl)).1⟩

/-- C4 (amended): `aqc_raw_event` validates only the report identifier.  The
`size` argument does not influence the result at all, a report carrying the
expected id is decoded unconditionally and stamps the snapshot, the function
always returns 0, and a report with any other id is silently skipped — there is
no truncation check and no Truncated error path. -/
theorem aqc_raw_event_id_only_validation (p : AqcData) (report_id : Nat)
    (data : List Nat) (s1 s2 : Nat) :
    aqc_raw_event p report_id data s1 = aqc_raw_event p report_id data s2 ∧
    ((aqc_raw_event p report_id data s1).updated = true ↔ report_id = STATUS_REPORT_ID) ∧
    ((aqc_raw_event p report_id data s1).handled = true ↔ report_id = STATUS_REPORT_ID) ∧
    (aqc_raw_event p report_id data s1).ret = 0 := by
  unfold aqc_raw_event
  by_cases h : report_id = STATUS_REPORT_ID
  · simp [h]
  · simp [h]

/-- Counterexample for C4: a zero-length buffer carrying the expected push
report id is decoded anyway — the snapshot is updated, nine temperature
channels are produced out of thin air (every read was past the end of the
supplied data), and 0 (not an error) is returned. -/
theorem aqc_raw_event_no_truncation_check :
    (aqc_raw_event d5next_profile STATUS_REPORT_ID [] 0).updated = true ∧
    (aqc_raw_event d5next_profile STATUS_REPORT_ID [] 0).temps.length = 9 ∧
    (aqc_raw_event d5next_profile STATUS_REPORT_ID [] 0).ret = 0 := by
  decide

/-- C5: when the primary feature-report SET succeeds and the secondary
acknowledgement SET fails, `aqc_send_ctrl_data` returns the secondary's error
(the failure is not swallowed), and the operation trace is exactly one primary
SET followed by the secondary — no rollback write is attempted. -/
theorem aqc_send_ctrl_data_secondary_failure_reported (p : AqcData) (buf : List Nat)
    (pr sr : Int) (hpr : 0 ≤ pr) (hsr : sr < 0) :
    (aqc_send_ctrl_data p buf pr sr).2 = sr ∧
    (aqc_send_ctrl_data p buf pr sr).2 < 0 ∧
    (aqc_send_ctrl_data p buf pr sr).1 =
      [CtrlOp.setImage (aqc_send_ctrl_data_buffer p buf), CtrlOp.setSecondaryReport] := by
  unfold aqc_send_ctrl_data
  rw [if_neg (by omega)]
  exact ⟨rfl, hsr, rfl⟩

/-- Witness for C5 at a concrete commit. -/
theorem aqc_send_ctrl_data_secondary_failure_reported_witness :
    ((0 : Int) ≤ 0) ∧ ((-5 : Int) < 0) ∧
    (aqc_send_ctrl_data tiny_profile tiny_image 0 (-5)).2 = -5 ∧
    (aqc_send_ctrl_data tiny_profile tiny_image 0 (-5)).2 < 0 :=
  ⟨by decide, by decide,
    (aqc_send_ctrl_data_secondary_failure_reported tiny_profile tiny_image 0 (-5)
      (by decide) (by decide)).1,
    (aqc_send_ctrl_data_secondary_failure_reported tiny_profile tiny_image 0 (-5)
      (by decide) (by decide)).2.1⟩

/-- C7: once the snapshot is older than the 2-interval validity window, a push
device (status report id 0) fails the read with -ENODATA, while a legacy device
(nonzero status report id) re-polls synchronously and fails only if the poll
fails. -/
theorem aqc_read_staleness (p : AqcData) (hz now updated : Nat) (legacy_ret : Int)
    (hstale : updated + 2 * hz < now) :
    (p.status_report_id = 0 → aqc_read_gate p hz now updated legacy_ret = -ENODATA) ∧
    (p.status_report_id ≠ 0 →
      (aqc_read_gate p hz now updated legacy_ret < 0 ↔ legacy_ret < 0) ∧
      (0 ≤ legacy_ret → aqc_read_gate p hz now updated legacy_ret = 0)) := by
  unfold aqc_read_gate
  rw [if_pos hstale]
  constructor
  · intro h
    rw [if_neg (by simp [h])]
  · intro h
    rw [if_pos h]
    constructor
    · by_cases hl : legacy_ret < 0
      · rw [if_pos hl]
        unfold ENODATA
        constructor <;> intro <;> omega
      · rw [if_neg hl]
        constructor <;> intro h2 <;> omega
    · intro h0
      rw [if_neg (by omega)]

/-- Witness for C7: a stale read on the push-reporting D5 Next fails with
-ENODATA; a stale read on the legacy Aquastream XT fails exactly when its
synchronous poll fails. -/
theorem aqc_read_staleness_witness :
    (0 + 2 * 100 < 1000) ∧
    aqc_read_gate d5next_profile 100 1000 0 0 = -ENODATA ∧
    (aqc_read_gate aquastreamxt_profile 100 1000 0 (-5) < 0 ↔ ((-5 : Int) < 0)) ∧
    aqc_read_gate aquastreamxt_profile 100 1000 0 0 = 0 :=
  ⟨by decide,
    (aqc_read_staleness d5next_profile 100 1000 0 0 (by decide)).1 (by decide),
    ((aqc_read_staleness aquastreamxt_profile 100 1000 0 (-5) (by decide)).2
      (by decide)).1,
    ((aqc_read_staleness aquastreamxt_profile 100 1000 0 0 (by decide)).2
      (by decide)).2 (by decide)⟩

/-- C8 (amended): a PWM write with a value outside 0..255 is rejected with
-EINVAL before any device I/O (the operation trace is empty); a
temperature-offset write is never rejected — for any value it fetches the
image (I/O occurs), writes the value clamped to ±15000 and divided by 10, and
returns the transport's result. -/
theorem aqc_write_range_handling (p : AqcData) (image : List Nat) (channel : Nat)
    (val : Int) (pr sr : Int) (hpr : 0 ≤ pr) (hsr : 0 ≤ sr) :
    ((val < 0 ∨ 255 < val) →
      aqc_write_pwm_input p image channel val true pr sr = ([], -EINVAL)) ∧
    (aqc_write_temp_offset p image channel val true pr sr).2 = sr ∧
    0 ≤ (aqc_write_temp_offset p image channel val true pr sr).2 ∧
    CtrlOp.getImage ∈ (aqc_write_temp_offset p image channel val true pr sr).1 := by
  constructor
  · intro h
    unfold aqc_write_pwm_input
    rw [if_pos h]
  · have happ : applyPatches image
        [(p.temp_ctrl_offset + channel * AQC_SENSOR_SIZE,
          (clamp_val val (-15000) 15000).tdiv 10, AQC_BE16)] =
        some (put_unaligned_be16
          (toU16 ((clamp_val val (-15000) 15000).tdiv 10)) image
          (p.temp_ctrl_offset + channel * AQC_SENSOR_SIZE)) := by
      unfold applyPatches aqc_set_buffer_val
      rw [if_neg (show ¬(AQC_BE16 = AQC_LE16) by decide), if_pos rfl]
      rfl
    unfold aqc_write_temp_offset aqc_set_ctrl_vals_ops
    rw [if_neg (show ¬¬(true = true) by simp)]
    simp only [happ]
    unfold aqc_send_ctrl_data
    rw [if_neg (show ¬(pr < 0) by omega)]
    exact ⟨rfl, hsr, List.mem_cons_self _ _⟩

/-- Witness for C8 at a concrete out-of-range PWM write and a concrete
temperature-offset write. -/
theorem aqc_write_range_handling_witness :
    ((0 : Int) ≤ 0) ∧ (((300 : Int) < 0 ∨ (255 : Int) < 300)) ∧
    aqc_write_pwm_input tiny_profile tiny_image 0 300 true 0 0 = ([], -EINVAL) ∧
    (aqc_write_temp_offset tiny_profile tiny_image 0 20000 true 0 0).2 = 0 ∧
    CtrlOp.getImage ∈ (aqc_write_temp_offset tiny_profile tiny_image 0 20000 true 0 0).1 :=
  ⟨by decide, by norm_num,
    (aqc_write_range_handling tiny_profile tiny_image 0 300 0 0
      (by decide) (by decide)).1 (by norm_num),
    (aqc_write_range_handling tiny_profile tiny_image 0 20000 0 0
      (by decide) (by decide)).2.1,
    (aqc_write_range_handling tiny_profile tiny_image 0 20000 0 0
      (by decide) (by decide)).2.2.2⟩

set_option maxRecDepth 100000 in
/-- Counterexample for C8: writing a temperature offset of 20000 (beyond the
documented ±15 degree bound) on the D5 Next is not rejected: the transaction
fetches the image and commits the clamped value 1500 (centi-degrees), returning
success. -/
theorem aqc_write_temp_offset_clamp_counterexample :
    (aqc_write_temp_offset d5next_profile (List.replicate 0x329 0) 0 20000 true 0 0).2 = 0 ∧
    (aqc_write_temp_offset d5next_profile (List.replicate 0x329 0) 0 20000 true 0 0).1 ≠ [] ∧
    CtrlOp.getImage ∈
      (aqc_write_temp_offset d5next_profile (List.replicate 0x329 0) 0 20000 true 0 0).1 ∧
    (clamp_val 20000 (-15000) 15000).tdiv 10 = 1500 := by
  refine ⟨?_, ?_, ?_, by decide⟩ <;> decide

/-- C9 (evaluation at the failing input): `aqc_params_is_visible` computes
`nr = index % 5`, so on the D5 Next it hides the "start boost" (index 8) and
"hold min power" (index 9) attributes of the SECOND channel — the fan, whose
curve the source comment and offset table (`d5next_ctrl_fan_curve_hold_start_offsets`,
real offset 0x2F for the fan, unused 0x00 for the pump) say supports all
parameters — exactly as it hides them for the pump channel (indices 3 and 4).
On other kinds (e.g. Octo) the attribute keeps its mode. -/
theorem aqc_params_is_visible_hides_fan_channel :
    aqc_params_is_visible Kind.d5next 3 420 = 0 ∧
    aqc_params_is_visible Kind.d5next 4 420 = 0 ∧
    aqc_params_is_visible Kind.d5next 8 420 = 0 ∧
    aqc_params_is_visible Kind.d5next 9 420 = 0 ∧
    aqc_params_is_visible Kind.octo 8 420 = 420 ∧
    aqc_params_is_visible Kind.octo 9 420 = 420 := by
  decide

set_option maxRecDepth 20000 in
/-- C10: for every PWM value 0..255 the opposite-direction round trip is
exact, and the centi-percent image lies in 0..10000. -/
theorem aqc_pwm_exact_inverse : ∀ pv : Fin 256,
    aqc_percent_to_pwm (aqc_pwm_to_percent ((pv.val : Nat) : Int)) = ((pv.val : Nat) : Int) ∧
    0 ≤ aqc_pwm_to_percent ((pv.val : Nat) : Int) ∧
    aqc_pwm_to_percent ((pv.val : Nat) : Int) ≤ 10000 := by
  decide

theorem tdiv_coe (a b : Nat) : (a : Int).tdiv (b : Int) = ((a / b : Nat) : Int) := rfl

/-- `aqc_percent_to_pwm` on a non-negative value is the rounded Nat division
`(val * 255 + 5000) / 10000`. -/
theorem percent_to_pwm_nat (n : Nat) :
    aqc_percent_to_pwm (n : Int) = (((n * 255 + 5000) / 10000 : Nat) : Int) := by
  cases n with
  | zero => decide
  | succ m =>
    have hpos : (0 : Int) < ((m + 1 : Nat) : Int) := by exact_mod_cast Nat.succ_pos m
    unfold aqc_percent_to_pwm div_round_closest
    rw [if_pos (iff_of_true (mul_pos hpos (by norm_num)) (by norm_num))]
    have h2 : ((100 * 100 : Int)).tdiv 2 = 5000 := by decide
    rw [h2]
    have h3 : ((m + 1 : Nat) : Int) * 255 + 5000 = (((m + 1) * 255 + 5000 : Nat) : Int) := by
      push_cast; ring
    have h4 : (100 * 100 : Int) = ((10000 : Nat) : Int) := by norm_num
    rw [h3, h4]
    exact tdiv_coe _ _

/-- `aqc_pwm_to_percent` on a non-negative value is the rounded Nat division
`(val * 10000 + 127) / 255`. -/
theorem pwm_to_percent_nat (n : Nat) :
    aqc_pwm_to_percent (n : Int) = (((n * 100 * 100 + 127) / 255 : Nat) : Int) := by
  cases n with
  | zero => decide
  | succ m =>
    have hpos : (0 : Int) < ((m + 1 : Nat) : Int) := by exact_mod_cast Nat.succ_pos m
    unfold aqc_pwm_to_percent div_round_closest
    rw [if_pos (iff_of_true (mul_pos (mul_pos hpos (by norm_num)) (by norm_num)) (by norm_num))]
    have h2 : ((255 : Int)).tdiv 2 = 127 := by decide
    rw [h2]
    have h3 : ((m + 1 : Nat) : Int) * 100 * 100 + 127 =
        (((m + 1) * 100 * 100 + 127 : Nat) : Int) := by push_cast; ring
    have h4 : (255 : Int) = ((255 : Nat) : Int) := by norm_num
    rw [h3, h4]
    exact tdiv_coe _ _

/-- C6 (amended): the forward round trip `pwmToPercent (percentToPwm x)` is
within 20 centi-percent units of `x` (half a PWM quantisation step of
10000/255 — not within 1, see the counterexample), `percentToPwm` is monotonic
non-decreasing over 0..10000, and the boundary values map 0 to 0 and 10000
to 255. -/
theorem aqc_pwm_roundtrip_bound (x y : Nat) (hx : x ≤ 10000) (hxy : x ≤ y)
    (hy : y ≤ 10000) :
    (aqc_pwm_to_percent (aqc_percent_to_pwm (x : Int)) - (x : Int)).natAbs ≤ 20 ∧
    aqc_percent_to_pwm (x : Int) ≤ aqc_percent_to_pwm (y : Int) ∧
    aqc_percent_to_pwm ((0 : Nat) : Int) = 0 ∧
    aqc_percent_to_pwm ((10000 : Nat) : Int) = 255 := by
  refine ⟨?_, ?_, by decide, by decide⟩
  · rw [percent_to_pwm_nat, pwm_to_percent_nat]
    omega
  · rw [percent_to_pwm_nat, percent_to_pwm_nat]
    omega

/-- Witness for C6 at x = 2, y = 10000. -/
theorem aqc_pwm_roundtrip_bound_witness :
    ((2 : Nat) ≤ 10000) ∧ ((2 : Nat) ≤ 10000) ∧ ((10000 : Nat) ≤ 10000) ∧
    ((aqc_pwm_to_percent (aqc_percent_to_pwm ((2 : Nat) : Int)) - ((2 : Nat) : Int)).natAbs ≤ 20 ∧
      aqc_percent_to_pwm ((2 : Nat) : Int) ≤ aqc_percent_to_pwm ((10000 : Nat) : Int) ∧
      aqc_percent_to_pwm ((0 : Nat) : Int) = 0 ∧
      aqc_percent_to_pwm ((10000 : Nat) : Int) = 255) :=
  ⟨by decide, by decide, by decide,
    aqc_pwm_roundtrip_bound 2 10000 (by decide) (by decide) (by decide)⟩

/-- Counterexample for C6 as stated: at x = 2 the round trip lands on 0, which
is 2 centi-percent units away — more than the claimed 1. -/
theorem aqc_pwm_roundtrip_counterexample :
    aqc_pwm_to_percent (aqc_percent_to_pwm ((2 : Nat) : Int)) = 0 ∧
    ¬((aqc_pwm_to_percent (aqc_percent_to_pwm ((2 : Nat) : Int)) -
        ((2 : Nat) : Int)).natAbs ≤ 1) := by
  decide
